import Mathlib

/-!
Verification of the local global-state cache of `cargo-casper`
(`lib/src/storage.rs` and `lib/src/subcommands/exec/state.rs`).

The in-memory `HashMap<Key, StoredValue>` is modelled as an association
list whose `insert` removes any previous binding for the key, so keys
stay unique; `Key` and `StoredValue` are opaque type parameters.  File
system state is a partial map from paths to serialized blobs, and the
external `bytesrepr` codec is a pair of parameters `encode`/`decode`.
-/

/-- The in-memory map of a `Storage`: `HashMap<Key, StoredValue>`. -/
def StoreMap (K V : Type) : Type :=
  List (K × V)

/-- `HashMap::get` (as used by `Storage::get`): the value bound to
`key`, if any. -/
def StoreMap.get {K V : Type} [DecidableEq K] : StoreMap K V → K → Option V
  | [], _ => none
  | (k, v) :: rest, key => if key = k then some v else StoreMap.get rest key

/-- `HashMap::insert` (as used by `Storage::insert`): unconditional
upsert, overwriting any previous binding for `key`. -/
def StoreMap.insert {K V : Type} [DecidableEq K] (m : StoreMap K V) (key : K)
    (value : V) : StoreMap K V :=
  (key, value) :: m.filter (fun entry => decide (entry.1 ≠ key))

/-- `casper_types::execution::TransformKind`, as consumed by
`Storage::commit`: `Identity` and `Write` are matched explicitly; every
other kind is represented by its externally defined `apply` function on
the current value, which may fail with an error of type `E`. -/
inductive TransformKind (V E : Type) where
  | identity
  | write (value : V)
  | update (apply : V → Except E V)

/-- The two variants of `casper_storage`'s `CommitError` that
`Storage::commit` produces. -/
inductive CommitError (K E : Type) where
  | keyNotFound (key : K)
  | transformError (e : E)
  deriving DecidableEq

/-- `Storage::commit`: folds the effects of an `ExecutionJournal` (an
ordered list of key/transform pairs) into the in-memory map.  Returns
the map as mutated so far together with `none` on success or the first
error; the loop stops at the first failing entry. -/
def Storage.commit {K V E : Type} [DecidableEq K] (store : StoreMap K V) :
    List (K × TransformKind V E) → StoreMap K V × Option (CommitError K E)
  | [] => (store, none)
  | (key, kind) :: rest =>
    match kind with
    | TransformKind.identity => Storage.commit store rest
    | TransformKind.write value =>
        Storage.commit (StoreMap.insert store key value) rest
    | TransformKind.update apply =>
        match StoreMap.get store key with
        | none => (store, some (CommitError.keyNotFound key))
        | some currentValue =>
            match apply currentValue with
            | Except.error e => (store, some (CommitError.transformError e))
            | Except.ok newValue =>
                Storage.commit (StoreMap.insert store key newValue) rest

/-- The `add 1` transform on natural-number values, used to exercise the
`Update` class of transform kinds; it never fails. -/
def addOne : Nat → Except Unit Nat :=
  fun v => Except.ok (v + 1)

/-- Claim C1: commit processes the entries of an effect batch in order:
for the batch `[(k, Write(v1)), (k, Update(add 1))]` applied to an empty
store, the resulting value for `k` is `v1 + 1`; for the batch
`[(k, Update(add 1))]` applied to an empty store, commit fails with
`KeyNotFound(k)` and afterwards the store contains no entry for `k`. -/
theorem commit_ordering (k v1 : Nat) :
    ((Storage.commit ([] : StoreMap Nat Nat)
        [(k, TransformKind.write v1), (k, TransformKind.update addOne)]).2 = none
      ∧ StoreMap.get (Storage.commit ([] : StoreMap Nat Nat)
          [(k, TransformKind.write v1), (k, TransformKind.update addOne)]).1 k
        = some (v1 + 1))
    ∧ ((Storage.commit ([] : StoreMap Nat Nat)
          [(k, TransformKind.update addOne)]).2
        = some (CommitError.keyNotFound k)
      ∧ StoreMap.get (Storage.commit ([] : StoreMap Nat Nat)
          [(k, TransformKind.update addOne)]).1 k = none) := by
  simp [Storage.commit, StoreMap.get, StoreMap.insert, List.filter, addOne]

/-- Splitting a batch: if the first part of a batch commits without
error, committing the whole batch is committing the second part against
the intermediate store. -/
theorem Storage.commit_append_ok {K V E : Type} [DecidableEq K]
    (a b : List (K × TransformKind V E)) (store s1 : StoreMap K V)
    (h : Storage.commit store a = (s1, none)) :
    Storage.commit store (a ++ b) = Storage.commit s1 b := by
  induction a generalizing store with
  | nil =>
      simp [Storage.commit] at h
      rw [h, List.nil_append]
  | cons hd tl ih =>
      obtain ⟨key, kind⟩ := hd
      cases kind with
      | identity =>
          simp only [Storage.commit] at h
          simpa [Storage.commit] using ih _ h
      | write value =>
          simp only [Storage.commit] at h
          simpa [Storage.commit] using ih _ h
      | update apply =>
          cases hget : StoreMap.get store key with
          | none =>
              simp only [Storage.commit, hget] at h
              simp at h
          | some currentValue =>
              cases happ : apply currentValue with
              | error e =>
                  simp only [Storage.commit, hget, happ] at h
                  simp at h
              | ok newValue =>
                  simp only [Storage.commit, hget, happ] at h
                  simp only [List.cons_append, Storage.commit, hget, happ]
                  exact ih _ h

/-- Claim C4: commit is not atomic.  If the prefix of a batch commits
cleanly to an intermediate store and the next entry is an Update-class
transform that fails there (key absent, or the transform function
rejecting the current value), commit of the whole batch returns that
error, the later entries are not applied, and the mutations of the
prefix remain applied (the resulting store is exactly the intermediate
store — no rollback). -/
theorem commit_not_atomic {K V E : Type} [DecidableEq K]
    (store s' : StoreMap K V) (pre post : List (K × TransformKind V E))
    (key : K) (f : V → Except E V)
    (hpre : Storage.commit store pre = (s', none)) :
    (StoreMap.get s' key = none →
        Storage.commit store (pre ++ (key, TransformKind.update f) :: post)
          = (s', some (CommitError.keyNotFound key))) ∧
    (∀ cur e, StoreMap.get s' key = some cur → f cur = Except.error e →
        Storage.commit store (pre ++ (key, TransformKind.update f) :: post)
          = (s', some (CommitError.transformError e))) := by
  constructor
  · intro hmiss
    rw [Storage.commit_append_ok _ _ _ _ hpre]
    simp [Storage.commit, hmiss]
  · intro cur e hcur herr
    rw [Storage.commit_append_ok _ _ _ _ hpre]
    simp [Storage.commit, hcur, herr]

/-- Witness for claim C4: committing
`[(0, Write 5), (1, Update (add 1)), (2, Write 9)]` to an empty store
stops at the Update on the never-written key `1` with `KeyNotFound 1`,
keeps the earlier write of `5` at key `0`, and does not apply the later
write at key `2`. -/
theorem commit_not_atomic_witness :
    Storage.commit ([] : StoreMap Nat Nat)
        ([(0, TransformKind.write 5)]
          ++ (1, TransformKind.update addOne) :: [(2, TransformKind.write 9)])
      = ([(0, 5)], some (CommitError.keyNotFound 1)) :=
  (commit_not_atomic [] [(0, 5)] [(0, TransformKind.write 5)]
      [(2, TransformKind.write 9)] 1 addOne rfl).1 rfl

/-- Whether a transform kind is `Identity` or `Write` (the kinds that
`Storage::commit` applies without looking up the current value). -/
def TransformKind.isIdentityOrWrite {V E : Type} : TransformKind V E → Bool
  | TransformKind.identity => true
  | TransformKind.write _ => true
  | TransformKind.update _ => false

/-- Claim C9: for every store state and every effect batch whose
transforms are all `Identity` or `Write`, commit returns success —
neither `KeyNotFound` nor `TransformError` can occur, regardless of
which keys are already present in the store. -/
theorem commit_identity_write_succeeds {K V E : Type} [DecidableEq K]
    (store : StoreMap K V) (batch : List (K × TransformKind V E))
    (h : ∀ entry ∈ batch, entry.2.isIdentityOrWrite = true) :
    (Storage.commit store batch).2 = none := by
  induction batch generalizing store with
  | nil => rfl
  | cons hd tl ih =>
      obtain ⟨key, kind⟩ := hd
      have hhd : kind.isIdentityOrWrite = true := h _ (List.mem_cons_self _ _)
      have htl : ∀ entry ∈ tl, entry.2.isIdentityOrWrite = true :=
        fun entry hm => h _ (List.mem_cons_of_mem _ hm)
      cases kind with
      | identity => simpa [Storage.commit] using ih _ htl
      | write value => simpa [Storage.commit] using ih _ htl
      | update apply => simp [TransformKind.isIdentityOrWrite] at hhd

/-- Witness for claim C9: a batch of one `Write` and one `Identity`
commits without error against an empty store. -/
theorem commit_identity_write_succeeds_witness :
    (Storage.commit ([] : StoreMap Nat Nat)
        [(0, (TransformKind.write 1 : TransformKind Nat Unit)),
         (1, TransformKind.identity)]).2 = none :=
  commit_identity_write_succeeds _ _ (by decide)

/-- The three outcomes of the remote `casper_client::query_global_state`
call made by `State::read` on a cache miss: a response carrying a stored
value, the JSON-RPC error with code `-32003` ("value not found in
global state"), or any other client error of type `E`. -/
inductive RemoteResponse (V E : Type) where
  | found (value : V)
  | notFound
  | failure (e : E)

/-- The only `bytesrepr::Error` variant `State::read` produces. -/
inductive BytesreprError where
  | notRepresentable
  deriving DecidableEq

/-- The `casper_storage` global-state error as produced by
`State::read`: any remote failure other than not-found is surfaced as
`Error::BytesRepr(bytesrepr::Error::NotRepresentable)`. -/
inductive GlobalStateError where
  | bytesRepr (e : BytesreprError)
  deriving DecidableEq

/-- `State::read`: checks the in-memory storage first and returns a hit
immediately; on a miss it performs the blocking remote query (modelled
as the function `queryGlobalState`, which fixes the node address and the
state root hash), caches a returned value in the storage, maps the
not-found response to `none`, and maps any other failure to
`GlobalStateError.bytesRepr notRepresentable`.  Returns the result
together with the storage map after the call. -/
def State.read {K V E : Type} [DecidableEq K] (storage : StoreMap K V)
    (queryGlobalState : K → RemoteResponse V E) (key : K) :
    Except GlobalStateError (Option V) × StoreMap K V :=
  match StoreMap.get storage key with
  | some value => (Except.ok (some value), storage)
  | none =>
      match queryGlobalState key with
      | RemoteResponse.found value =>
          (Except.ok (some value), StoreMap.insert storage key value)
      | RemoteResponse.notFound => (Except.ok none, storage)
      | RemoteResponse.failure _ =>
          (Except.error (GlobalStateError.bytesRepr BytesreprError.notRepresentable),
            storage)

/-- Claim C2: read is read-through caching.  On a hit the cached value
is returned with the storage unchanged, independently of the remote
endpoint (no remote fetch); on a miss answered by the remote endpoint
with a value, that value is inserted into the storage and returned, and
a second read of the same key returns the cached value with no further
remote access (again independently of the remote endpoint). -/
theorem read_read_through {K V E : Type} [DecidableEq K]
    (storage : StoreMap K V) (remote : K → RemoteResponse V E) (key : K) :
    (∀ v, StoreMap.get storage key = some v →
        ∀ remote2 : K → RemoteResponse V E,
          State.read storage remote2 key = (Except.ok (some v), storage)) ∧
    (∀ v, StoreMap.get storage key = none →
        remote key = RemoteResponse.found v →
        State.read storage remote key
            = (Except.ok (some v), StoreMap.insert storage key v) ∧
        ∀ remote2 : K → RemoteResponse V E,
          State.read (StoreMap.insert storage key v) remote2 key
            = (Except.ok (some v), StoreMap.insert storage key v)) := by
  refine ⟨fun v hv remote2 => ?_, fun v hmiss hfound => ⟨?_, fun remote2 => ?_⟩⟩
  · simp [State.read, hv]
  · simp [State.read, hmiss, hfound]
  · simp [State.read, StoreMap.get, StoreMap.insert]

/-- Witness for claim C2: reading key `0` from an empty store with a
remote endpoint holding `7` caches and returns `7`; the second read
returns the cached `7` even against a remote stub that only fails. -/
theorem read_read_through_witness :
    State.read ([] : StoreMap Nat Nat)
        (fun _ => (RemoteResponse.found 7 : RemoteResponse Nat Unit)) 0
      = (Except.ok (some 7), StoreMap.insert [] 0 7) ∧
    State.read (StoreMap.insert ([] : StoreMap Nat Nat) 0 7)
        (fun _ => (RemoteResponse.failure () : RemoteResponse Nat Unit)) 0
      = (Except.ok (some 7), StoreMap.insert [] 0 7) := by
  have h := (read_read_through ([] : StoreMap Nat Nat)
      (fun _ => (RemoteResponse.found 7 : RemoteResponse Nat Unit)) 0).2 7 rfl rfl
  exact ⟨h.1, h.2 _⟩

/-- Claim C6: not-found passthrough.  For every key absent from the
local store, when the remote endpoint answers not-found, read returns
`none` (not an error) and the storage map is unchanged — nothing is
inserted. -/
theorem read_not_found_passthrough {K V E : Type} [DecidableEq K]
    (storage : StoreMap K V) (remote : K → RemoteResponse V E) (key : K)
    (hmiss : StoreMap.get storage key = none)
    (hnf : remote key = RemoteResponse.notFound) :
    State.read storage remote key = (Except.ok none, storage) := by
  simp [State.read, hmiss, hnf]

/-- Witness for claim C6: reading key `0` from an empty store against a
remote endpoint that answers not-found yields `none` and leaves the
store empty. -/
theorem read_not_found_passthrough_witness :
    State.read ([] : StoreMap Nat Nat)
        (fun _ => (RemoteResponse.notFound : RemoteResponse Nat Unit)) 0
      = (Except.ok none, []) :=
  read_not_found_passthrough _ _ _ rfl rfl

/-- Claim C7: for every key absent from the local store, when the
remote fetch fails with any outcome other than a value or not-found,
read returns an error — distinguishable from the not-found result
`Except.ok none` — and the storage map is unchanged. -/
theorem read_remote_failure {K V E : Type} [DecidableEq K]
    (storage : StoreMap K V) (remote : K → RemoteResponse V E) (key : K)
    (e : E) (hmiss : StoreMap.get storage key = none)
    (hfail : remote key = RemoteResponse.failure e) :
    State.read storage remote key
        = (Except.error (GlobalStateError.bytesRepr BytesreprError.notRepresentable),
            storage) ∧
    (State.read storage remote key).1 ≠ Except.ok none := by
  have h : State.read storage remote key
      = (Except.error (GlobalStateError.bytesRepr BytesreprError.notRepresentable),
          storage) := by
    simp [State.read, hmiss, hfail]
  exact ⟨h, by rw [h]; exact fun hc => Except.noConfusion hc⟩

/-- Witness for claim C7: reading key `0` from an empty store against a
remote endpoint that fails with a transport-class error returns the
fixed read error and leaves the store empty. -/
theorem read_remote_failure_witness :
    State.read ([] : StoreMap Nat Nat)
        (fun _ => (RemoteResponse.failure () : RemoteResponse Nat Unit)) 0
      = (Except.error (GlobalStateError.bytesRepr BytesreprError.notRepresentable),
          []) :=
  (read_remote_failure ([] : StoreMap Nat Nat)
      (fun _ => (RemoteResponse.failure () : RemoteResponse Nat Unit)) 0 () rfl rfl).1

/-- The lowercase hex character of one nibble, as produced by the
`Debug` formatting of a `Digest` (hex-encoding of its bytes). -/
def nibbleChar (n : Fin 16) : Char :=
  if n.val < 10 then Char.ofNat (48 + n.val) else Char.ofNat (87 + n.val)

/-- The two hex characters of one byte of a `Digest`. -/
def byteHexChars (b : Fin 256) : List Char :=
  [nibbleChar ⟨b.val / 16, by have := b.isLt; omega⟩,
   nibbleChar ⟨b.val % 16, by have := b.isLt; omega⟩]

/-- `format!("{:?}", state_hash)`: the hex encoding of the digest's
bytes, per the source's doc comment ("hex-encoded state_hash"). -/
def digestHexChars (d : List (Fin 256)) : List Char :=
  d.flatMap byteHexChars

/-- Whether a character is a lowercase hexadecimal digit. -/
def isHexDigitChar (c : Char) : Bool :=
  (decide ('0' ≤ c) && decide (c ≤ '9')) || (decide ('a' ≤ c) && decide (c ≤ 'f'))

theorem nibbleChar_hex : ∀ n : Fin 16, isHexDigitChar (nibbleChar n) = true := by
  decide

theorem byteHexChars_hex (b : Fin 256) :
    (byteHexChars b).all isHexDigitChar = true := by
  simp [byteHexChars, nibbleChar_hex]

theorem digestHexChars_all_hex (d : List (Fin 256)) :
    (digestHexChars d).all isHexDigitChar = true := by
  induction d with
  | nil => rfl
  | cons b tl ih =>
      have hb := byteHexChars_hex b
      simp only [digestHexChars, List.flatMap_cons, List.all_append] at *
      simp [hb, ih]

theorem all_take_of_all {α : Type} (p : α → Bool) (l : List α) (n : Nat)
    (h : l.all p = true) : (l.take n).all p = true := by
  rw [List.all_eq_true] at h ⊢
  exact fun x hx => h x (List.take_subset n l hx)

/-- `Path::join`: appends a file name to a directory path with a
separator. -/
def pathJoin (rootPath fileName : List Char) : List Char :=
  rootPath ++ '/' :: fileName

/-- The snapshot file path computed by `Storage::new`:
`root_path.join(format!("{}-{}", chain_name, short_hash))` where
`short_hash` is the hex encoding of `state_hash` truncated to its first
7 characters. -/
def Storage.snapshotPath (rootPath chainName : List Char)
    (stateHash : List (Fin 256)) : List Char :=
  let shortHash := (digestHexChars stateHash).take 7
  pathJoin rootPath (chainName ++ '-' :: shortHash)

/-- Claim C8: for every root directory, network name, and state root
digest, open derives the snapshot file path deterministically as
`root_directory/"{network_name}-{first 7 hex chars of digest}"`, and the
suffix consists of the first 7 characters of the digest's hex encoding,
each of which is a hexadecimal character. -/
theorem snapshot_path_derivation (rootPath chainName : List Char)
    (stateHash : List (Fin 256)) :
    Storage.snapshotPath rootPath chainName stateHash
        = rootPath ++ '/' :: (chainName ++ '-' :: (digestHexChars stateHash).take 7)
      ∧ ((digestHexChars stateHash).take 7).all isHexDigitChar = true :=
  ⟨rfl, all_take_of_all _ _ _ (digestHexChars_all_hex stateHash)⟩

/-- The file system visible to `Storage`: a partial map from paths to
serialized snapshot contents. -/
abbrev FS (B : Type) : Type := List Char → Option B

/-- `fs::write`: (over)writes the file at `path`. -/
def FS.write {B : Type} (fs : FS B) (path : List Char) (contents : B) : FS B :=
  fun q => if q = path then some contents else fs q

/-- The `Storage` struct: the derived snapshot file path and the
in-memory map. -/
structure Storage (K V : Type) where
  path : List Char
  data : StoreMap K V

/-- `Storage::persist`: serializes the entire in-memory map with the
external codec `encode` and writes it to the snapshot file, overwriting
any prior contents.  (Directory creation and I/O failures are not
modelled; `persist` always succeeds.) -/
def Storage.persist {K V B : Type} (encode : StoreMap K V → B) (fs : FS B)
    (s : Storage K V) : FS B :=
  FS.write fs s.path (encode s.data)

/-- The error type of `Storage::new` / `Storage::persist`.  Only
`missingFile` and `deserialize` are reachable in this model, where file
reads and writes always succeed. -/
inductive StorageError where
  | missingFile (path : List Char)
  | readFailed (path : List Char)
  | deserialize (path : List Char)
  | createDir (path : List Char)
  | serialize
  | writeFailed (path : List Char)
  deriving DecidableEq

/-- `Storage::new`: derives the snapshot file path; if no file is there,
either creates an empty store and immediately persists it
(`create_if_missing`) or fails with `MissingFile`; if the file exists,
reads and decodes it with the external codec `decode`.  Returns the
result together with the file system after the call. -/
def Storage.new {K V B : Type} (encode : StoreMap K V → B)
    (decode : B → Option (StoreMap K V)) (fs : FS B)
    (rootPath chainName : List Char) (stateHash : List (Fin 256))
    (createIfMissing : Bool) : Except StorageError (Storage K V) × FS B :=
  let path := Storage.snapshotPath rootPath chainName stateHash
  match fs path with
  | none =>
      if createIfMissing then
        let storage : Storage K V := ⟨path, []⟩
        (Except.ok storage, Storage.persist encode fs storage)
      else
        (Except.error (StorageError.missingFile path), fs)
  | some serialized =>
      match decode serialized with
      | none => (Except.error (StorageError.deserialize path), fs)
      | some data => (Except.ok ⟨path, data⟩, fs)

/-- Claim C5: open with `create_if_missing = false` and no snapshot
file at the derived path fails with `StorageError.missingFile` naming
the path and creates no file (the file system is returned unchanged);
with `create_if_missing = true` and no file, it returns a store with an
empty mapping and immediately persists it, so the file exists at the
derived path afterward. -/
theorem open_missing_file {K V B : Type} (encode : StoreMap K V → B)
    (decode : B → Option (StoreMap K V)) (fs : FS B)
    (rootPath chainName : List Char) (stateHash : List (Fin 256))
    (hmiss : fs (Storage.snapshotPath rootPath chainName stateHash) = none) :
    Storage.new encode decode fs rootPath chainName stateHash false
        = (Except.error
            (StorageError.missingFile
              (Storage.snapshotPath rootPath chainName stateHash)), fs) ∧
    (Storage.new encode decode fs rootPath chainName stateHash true).1
        = Except.ok ⟨Storage.snapshotPath rootPath chainName stateHash,
            ([] : StoreMap K V)⟩ ∧
    (Storage.new encode decode fs rootPath chainName stateHash true).2
        (Storage.snapshotPath rootPath chainName stateHash)
      = some (encode ([] : StoreMap K V)) := by
  refine ⟨?_, ?_, ?_⟩ <;>
    simp [Storage.new, hmiss, Storage.persist, FS.write]

/-- Witness for claim C5 at a concrete file system with no files, the
identity codec, root `r`, chain name `c` and the one-byte digest `00`. -/
theorem open_missing_file_witness :
    Storage.new (K := Nat) (V := Nat) id some (fun _ => none)
        ['r'] ['c'] [(0 : Fin 256)] false
      = (Except.error
          (StorageError.missingFile
            (Storage.snapshotPath ['r'] ['c'] [(0 : Fin 256)])),
          fun _ => none) ∧
    (Storage.new (K := Nat) (V := Nat) id some (fun _ => none)
        ['r'] ['c'] [(0 : Fin 256)] true).1
      = Except.ok ⟨Storage.snapshotPath ['r'] ['c'] [(0 : Fin 256)], []⟩ ∧
    (Storage.new (K := Nat) (V := Nat) id some (fun _ => none)
        ['r'] ['c'] [(0 : Fin 256)] true).2
        (Storage.snapshotPath ['r'] ['c'] [(0 : Fin 256)])
      = some (id ([] : StoreMap Nat Nat)) :=
  open_missing_file id some (fun _ => none) ['r'] ['c'] [(0 : Fin 256)] rfl

/-- Claim C10: when the snapshot file already exists at the derived
path, open only reads it — the file system is returned unchanged,
whatever the value of `create_if_missing` and whether or not decoding
succeeds (only persist writes the file). -/
theorem open_existing_no_write {K V B : Type} (encode : StoreMap K V → B)
    (decode : B → Option (StoreMap K V)) (fs : FS B)
    (rootPath chainName : List Char) (stateHash : List (Fin 256))
    (serialized : B)
    (hfile : fs (Storage.snapshotPath rootPath chainName stateHash)
        = some serialized)
    (createIfMissing : Bool) :
    (Storage.new encode decode fs rootPath chainName stateHash
        createIfMissing).2 = fs := by
  simp only [Storage.new, hfile]
  cases decode serialized <;> simp

/-- Witness for claim C10: opening against a file system that has a
file (holding the encoding of the empty map) at every path leaves that
file system untouched. -/
theorem open_existing_no_write_witness :
    (Storage.new (K := Nat) (V := Nat) id some
        (fun _ => some ([] : StoreMap Nat Nat)) ['r'] ['c'] [(0 : Fin 256)]
        false).2
      = fun _ => some ([] : StoreMap Nat Nat) :=
  open_existing_no_write id some (fun _ => some ([] : StoreMap Nat Nat))
    ['r'] ['c'] [(0 : Fin 256)] [] rfl false

/-- Claim C3: persist/open round-trip.  For every in-memory mapping
`m`, persisting `m` to its snapshot file and then reopening the store
from that file yields the store back, with a mapping equal to `m`
key-for-key and value-for-value — under the hypothesis that the
external codec's encode/decode round-trips on `m`. -/
theorem persist_open_roundtrip {K V B : Type} (encode : StoreMap K V → B)
    (decode : B → Option (StoreMap K V)) (fs : FS B)
    (rootPath chainName : List Char) (stateHash : List (Fin 256))
    (m : StoreMap K V) (createIfMissing : Bool)
    (hcodec : decode (encode m) = some m) :
    (Storage.new encode decode
        (Storage.persist encode fs
          ⟨Storage.snapshotPath rootPath chainName stateHash, m⟩)
        rootPath chainName stateHash createIfMissing).1
      = Except.ok ⟨Storage.snapshotPath rootPath chainName stateHash, m⟩ := by
  simp [Storage.new, Storage.persist, FS.write, hcodec]

/-- Witness for claim C3 with the identity codec: persisting the
one-entry map `[(1, 2)]` and reopening yields the same map. -/
theorem persist_open_roundtrip_witness :
    (Storage.new (K := Nat) (V := Nat) id some
        (Storage.persist id (fun _ => none)
          ⟨Storage.snapshotPath ['r'] ['c'] [(0 : Fin 256)], [(1, 2)]⟩)
        ['r'] ['c'] [(0 : Fin 256)] false).1
      = Except.ok ⟨Storage.snapshotPath ['r'] ['c'] [(0 : Fin 256)], [(1, 2)]⟩ :=
  persist_open_roundtrip id some (fun _ => none) ['r'] ['c'] [(0 : Fin 256)]
    [(1, 2)] false rfl
